import Mathlib

/-!
Verification of the AI Ethics Advisor rule evaluator (src/main.py).

The evaluator receives a Python dict mapping eleven attribute names to
booleans, checks six propositional violation rules and returns a pair
(is_permissible, violated_rules).  We embed the dict as a partial map
from strings to booleans; a missing key is `none`, and a dict subscript
on a missing key raises KeyError carrying the key name, modelled by
`Except.error key`.  Python's short-circuit `and` is modelled by the
nested matches in the rule functions: the right operand is only looked
up when the left operand is true.
-/

namespace EthicsAdvisor

/-- An Action: the evaluator's input map.  `none` models an absent key. -/
abbrev Action : Type := String → Option Bool

/-- Dict subscript `action[key]`: the stored boolean, or a KeyError
naming the key when it is absent. -/
def getAttr (action : Action) (key : String) : Except String Bool :=
  match action key with
  | some b => Except.ok b
  | none => Except.error key

/-- Rule 1 - Non-Maleficence: V1 := causes_severe_harm. -/
def is_rule1_violated (action : Action) : Except String Bool :=
  getAttr action "causes_severe_harm"

/-- Rule 2 - Harm-Mitigation: V2 := causes_minor_harm AND NOT prevents_catastrophe,
with Python short-circuit: prevents_catastrophe is read only when
causes_minor_harm is true. -/
def is_rule2_violated (action : Action) : Except String Bool :=
  match getAttr action "causes_minor_harm" with
  | Except.error e => Except.error e
  | Except.ok mh =>
    if mh then
      match getAttr action "prevents_catastrophe" with
      | Except.error e => Except.error e
      | Except.ok pc => Except.ok (!pc)
    else Except.ok false

/-- Rule 3 - Data-Stewardship: V3 := violates_privacy AND NOT has_consent,
short-circuit as in rule 2. -/
def is_rule3_violated (action : Action) : Except String Bool :=
  match getAttr action "violates_privacy" with
  | Except.error e => Except.error e
  | Except.ok vp =>
    if vp then
      match getAttr action "has_consent" with
      | Except.error e => Except.error e
      | Except.ok hc => Except.ok (!hc)
    else Except.ok false

/-- Rule 4 - Honesty: V4 := deceives_human AND NOT (prevents_minor_harm AND
has_ethics_approval).  Short-circuit: prevents_minor_harm is read only when
deceives_human is true, and has_ethics_approval only when additionally
prevents_minor_harm is true. -/
def is_rule4_violated (action : Action) : Except String Bool :=
  match getAttr action "deceives_human" with
  | Except.error e => Except.error e
  | Except.ok dh =>
    if dh then
      match getAttr action "prevents_minor_harm" with
      | Except.error e => Except.error e
      | Except.ok pm =>
        if pm then
          match getAttr action "has_ethics_approval" with
          | Except.error e => Except.error e
          | Except.ok ea => Except.ok (!ea)
        else Except.ok true
    else Except.ok false

/-- Rule 5 - Accountability: V5 := NOT has_explanation. -/
def is_rule5_violated (action : Action) : Except String Bool :=
  match getAttr action "has_explanation" with
  | Except.error e => Except.error e
  | Except.ok ex => Except.ok (!ex)

/-- Rule 6 - Bias Governance: V6 := uses_historical_data AND NOT
has_bias_mitigation, short-circuit as in rule 2. -/
def is_rule6_violated (action : Action) : Except String Bool :=
  match getAttr action "uses_historical_data" with
  | Except.error e => Except.error e
  | Except.ok hd =>
    if hd then
      match getAttr action "has_bias_mitigation" with
      | Except.error e => Except.error e
      | Except.ok bm => Except.ok (!bm)
    else Except.ok false

/-- Main advisor function: returns (is_permissible, violated_rules).
Rules are checked in index order; the label of each violated rule is
appended to the list, and is_permissible is `len(violated_rules) == 0`.
A KeyError raised by a rule aborts the evaluation. -/
def is_action_permissible (action : Action) : Except String (Bool × List String) :=
  match is_rule1_violated action with
  | Except.error e => Except.error e
  | Except.ok v1 =>
  match is_rule2_violated action with
  | Except.error e => Except.error e
  | Except.ok v2 =>
  match is_rule3_violated action with
  | Except.error e => Except.error e
  | Except.ok v3 =>
  match is_rule4_violated action with
  | Except.error e => Except.error e
  | Except.ok v4 =>
  match is_rule5_violated action with
  | Except.error e => Except.error e
  | Except.ok v5 =>
  match is_rule6_violated action with
  | Except.error e => Except.error e
  | Except.ok v6 =>
    let violated_rules : List String := []
    let violated_rules := if v1 then violated_rules ++ ["Rule 1: Non-Maleficence (Severe Harm)"] else violated_rules
    let violated_rules := if v2 then violated_rules ++ ["Rule 2: Harm-Mitigation (Unjustified Minor Harm)"] else violated_rules
    let violated_rules := if v3 then violated_rules ++ ["Rule 3: Data-Stewardship (Privacy without Consent)"] else violated_rules
    let violated_rules := if v4 then violated_rules ++ ["Rule 4: Honesty (Unjustified Deception)"] else violated_rules
    let violated_rules := if v5 then violated_rules ++ ["Rule 5: Accountability (No Explanation / Traceability)"] else violated_rules
    let violated_rules := if v6 then violated_rules ++ ["Rule 6: Bias Governance (Unmitigated Historical Bias)"] else violated_rules
    let is_permissible := violated_rules.length == 0
    Except.ok (is_permissible, violated_rules)

/-- The value (is_permissible, violated_rules) built from the six rule
verdicts, mirroring the aggregation in is_action_permissible. -/
def rulesResult (v1 v2 v3 v4 v5 v6 : Bool) : Bool × List String :=
  let vr : List String := []
  let vr := if v1 then vr ++ ["Rule 1: Non-Maleficence (Severe Harm)"] else vr
  let vr := if v2 then vr ++ ["Rule 2: Harm-Mitigation (Unjustified Minor Harm)"] else vr
  let vr := if v3 then vr ++ ["Rule 3: Data-Stewardship (Privacy without Consent)"] else vr
  let vr := if v4 then vr ++ ["Rule 4: Honesty (Unjustified Deception)"] else vr
  let vr := if v5 then vr ++ ["Rule 5: Accountability (No Explanation / Traceability)"] else vr
  let vr := if v6 then vr ++ ["Rule 6: Bias Governance (Unmitigated Historical Bias)"] else vr
  (vr.length == 0, vr)

/-- Scenario A from the source: safer patrol zones with limited data. -/
def scenario_A_action : Action := fun k =>
  match k with
  | "causes_severe_harm" => some false
  | "causes_minor_harm" => some true
  | "prevents_catastrophe" => some true
  | "violates_privacy" => some false
  | "has_consent" => some true
  | "deceives_human" => some false
  | "has_ethics_approval" => some true
  | "has_explanation" => some true
  | "prevents_minor_harm" => some true
  | "uses_historical_data" => some false
  | "has_bias_mitigation" => some true
  | _ => none

/-- Scenario B from the source: hidden risk scores based on biased history. -/
def scenario_B_action : Action := fun k =>
  match k with
  | "causes_severe_harm" => some true
  | "causes_minor_harm" => some true
  | "prevents_catastrophe" => some false
  | "violates_privacy" => some true
  | "has_consent" => some false
  | "deceives_human" => some true
  | "has_ethics_approval" => some false
  | "has_explanation" => some false
  | "prevents_minor_harm" => some false
  | "uses_historical_data" => some true
  | "has_bias_mitigation" => some false
  | _ => none

/-- Scenario C from the source: undercover intervention to prevent a shooting. -/
def scenario_C_action : Action := fun k =>
  match k with
  | "causes_severe_harm" => some false
  | "causes_minor_harm" => some true
  | "prevents_catastrophe" => some true
  | "violates_privacy" => some true
  | "has_consent" => some true
  | "deceives_human" => some true
  | "has_ethics_approval" => some true
  | "has_explanation" => some true
  | "prevents_minor_harm" => some true
  | "uses_historical_data" => some true
  | "has_bias_mitigation" => some true
  | _ => none

/-- Removing a key from an action, as in deleting a dict entry. -/
def removeKey (a : Action) (k : String) : Action :=
  fun k2 => if k2 = k then none else a k2

/-- The rule index encoded by each of the six fixed labels. -/
def ruleIdx : String → Nat
  | "Rule 1: Non-Maleficence (Severe Harm)" => 1
  | "Rule 2: Harm-Mitigation (Unjustified Minor Harm)" => 2
  | "Rule 3: Data-Stewardship (Privacy without Consent)" => 3
  | "Rule 4: Honesty (Unjustified Deception)" => 4
  | "Rule 5: Accountability (No Explanation / Traceability)" => 5
  | "Rule 6: Bias Governance (Unmitigated Historical Bias)" => 6
  | _ => 0

/-- The full violation list, as produced for scenario B where every rule fires. -/
def scenarioBViolations : List String :=
  ["Rule 1: Non-Maleficence (Severe Harm)",
   "Rule 2: Harm-Mitigation (Unjustified Minor Harm)",
   "Rule 3: Data-Stewardship (Privacy without Consent)",
   "Rule 4: Honesty (Unjustified Deception)",
   "Rule 5: Accountability (No Explanation / Traceability)",
   "Rule 6: Bias Governance (Unmitigated Historical Bias)"]

/-- A well-formed action firing no rule: causes_minor_harm, violates_privacy,
deceives_human and uses_historical_data are all false, so every
conditionally-read attribute is short-circuited away. -/
def benign_full_action : Action := fun k =>
  match k with
  | "causes_severe_harm" => some false
  | "causes_minor_harm" => some false
  | "prevents_catastrophe" => some true
  | "violates_privacy" => some false
  | "has_consent" => some true
  | "deceives_human" => some false
  | "has_ethics_approval" => some true
  | "has_explanation" => some true
  | "prevents_minor_harm" => some true
  | "uses_historical_data" => some false
  | "has_bias_mitigation" => some true
  | _ => none

theorem removeKey_self (a : Action) (k : String) : removeKey a k k = none := by
  simp [removeKey]

theorem removeKey_ne (a : Action) (k k2 : String) (h : k2 ≠ k) :
    removeKey a k k2 = a k2 := by
  simp [removeKey, h]

theorem removeKey_lookup (a : Action) (k k2 : String) (b : Option Bool)
    (h : a k2 = b) (hne : k2 ≠ k) : removeKey a k k2 = b :=
  (removeKey_ne a k k2 hne).trans h

theorem rule1_ok (a : Action) (sH : Bool)
    (h : a "causes_severe_harm" = some sH) :
    is_rule1_violated a = Except.ok sH := by
  simp [is_rule1_violated, getAttr, h]

theorem rule2_ok (a : Action) (mH pc : Bool)
    (h1 : a "causes_minor_harm" = some mH)
    (h2 : a "prevents_catastrophe" = some pc) :
    is_rule2_violated a = Except.ok (mH && !pc) := by
  simp only [is_rule2_violated, getAttr, h1, h2]
  cases mH <;> simp

theorem rule2_ok_of_mH_false (a : Action)
    (h1 : a "causes_minor_harm" = some false) :
    is_rule2_violated a = Except.ok false := by
  simp [is_rule2_violated, getAttr, h1]

theorem rule3_ok (a : Action) (vp hc : Bool)
    (h1 : a "violates_privacy" = some vp)
    (h2 : a "has_consent" = some hc) :
    is_rule3_violated a = Except.ok (vp && !hc) := by
  simp only [is_rule3_violated, getAttr, h1, h2]
  cases vp <;> simp

theorem rule3_ok_of_vp_false (a : Action)
    (h1 : a "violates_privacy" = some false) :
    is_rule3_violated a = Except.ok false := by
  simp [is_rule3_violated, getAttr, h1]

theorem rule4_ok (a : Action) (dh pm ea : Bool)
    (h1 : a "deceives_human" = some dh)
    (h2 : a "prevents_minor_harm" = some pm)
    (h3 : a "has_ethics_approval" = some ea) :
    is_rule4_violated a = Except.ok (dh && !(pm && ea)) := by
  simp only [is_rule4_violated, getAttr, h1, h2, h3]
  cases dh <;> cases pm <;> simp

theorem rule4_ok_of_dh_false (a : Action)
    (h1 : a "deceives_human" = some false) :
    is_rule4_violated a = Except.ok false := by
  simp [is_rule4_violated, getAttr, h1]

theorem rule4_ok_of_pm_false (a : Action)
    (h1 : a "deceives_human" = some true)
    (h2 : a "prevents_minor_harm" = some false) :
    is_rule4_violated a = Except.ok true := by
  simp [is_rule4_violated, getAttr, h1, h2]

theorem rule5_ok (a : Action) (ex : Bool)
    (h : a "has_explanation" = some ex) :
    is_rule5_violated a = Except.ok (!ex) := by
  simp [is_rule5_violated, getAttr, h]

theorem rule6_ok (a : Action) (hd bm : Bool)
    (h1 : a "uses_historical_data" = some hd)
    (h2 : a "has_bias_mitigation" = some bm) :
    is_rule6_violated a = Except.ok (hd && !bm) := by
  simp only [is_rule6_violated, getAttr, h1, h2]
  cases hd <;> simp

theorem rule6_ok_of_hd_false (a : Action)
    (h1 : a "uses_historical_data" = some false) :
    is_rule6_violated a = Except.ok false := by
  simp [is_rule6_violated, getAttr, h1]

theorem rule1_err (a : Action)
    (h : a "causes_severe_harm" = none) :
    is_rule1_violated a = Except.error "causes_severe_harm" := by
  simp [is_rule1_violated, getAttr, h]

theorem rule2_err_mH (a : Action)
    (h : a "causes_minor_harm" = none) :
    is_rule2_violated a = Except.error "causes_minor_harm" := by
  simp [is_rule2_violated, getAttr, h]

theorem rule2_err_pc (a : Action)
    (h1 : a "causes_minor_harm" = some true)
    (h2 : a "prevents_catastrophe" = none) :
    is_rule2_violated a = Except.error "prevents_catastrophe" := by
  simp [is_rule2_violated, getAttr, h1, h2]

theorem rule3_err_vp (a : Action)
    (h : a "violates_privacy" = none) :
    is_rule3_violated a = Except.error "violates_privacy" := by
  simp [is_rule3_violated, getAttr, h]

theorem rule3_err_hc (a : Action)
    (h1 : a "violates_privacy" = some true)
    (h2 : a "has_consent" = none) :
    is_rule3_violated a = Except.error "has_consent" := by
  simp [is_rule3_violated, getAttr, h1, h2]

theorem rule4_err_dh (a : Action)
    (h : a "deceives_human" = none) :
    is_rule4_violated a = Except.error "deceives_human" := by
  simp [is_rule4_violated, getAttr, h]

theorem rule4_err_pm (a : Action)
    (h1 : a "deceives_human" = some true)
    (h2 : a "prevents_minor_harm" = none) :
    is_rule4_violated a = Except.error "prevents_minor_harm" := by
  simp [is_rule4_violated, getAttr, h1, h2]

theorem rule4_err_ea (a : Action)
    (h1 : a "deceives_human" = some true)
    (h2 : a "prevents_minor_harm" = some true)
    (h3 : a "has_ethics_approval" = none) :
    is_rule4_violated a = Except.error "has_ethics_approval" := by
  simp [is_rule4_violated, getAttr, h1, h2, h3]

theorem rule5_err_ex (a : Action)
    (h : a "has_explanation" = none) :
    is_rule5_violated a = Except.error "has_explanation" := by
  simp [is_rule5_violated, getAttr, h]

theorem rule6_err_hd (a : Action)
    (h : a "uses_historical_data" = none) :
    is_rule6_violated a = Except.error "uses_historical_data" := by
  simp [is_rule6_violated, getAttr, h]

theorem rule6_err_bm (a : Action)
    (h1 : a "uses_historical_data" = some true)
    (h2 : a "has_bias_mitigation" = none) :
    is_rule6_violated a = Except.error "has_bias_mitigation" := by
  simp [is_rule6_violated, getAttr, h1, h2]

theorem eval_rules (a : Action) (v1 v2 v3 v4 v5 v6 : Bool)
    (g1 : is_rule1_violated a = Except.ok v1)
    (g2 : is_rule2_violated a = Except.ok v2)
    (g3 : is_rule3_violated a = Except.ok v3)
    (g4 : is_rule4_violated a = Except.ok v4)
    (g5 : is_rule5_violated a = Except.ok v5)
    (g6 : is_rule6_violated a = Except.ok v6) :
    is_action_permissible a = Except.ok (rulesResult v1 v2 v3 v4 v5 v6) := by
  simp only [is_action_permissible, g1, g2, g3, g4, g5, g6, rulesResult]

/-- Closed-form evaluation: on an action holding all eleven keys, the
advisor returns the aggregation of the six rule predicates. -/
theorem eval_eq (a : Action) (sH mH pc vp hc dh ea ex pm hd bm : Bool)
    (h1 : a "causes_severe_harm" = some sH)
    (h2 : a "causes_minor_harm" = some mH)
    (h3 : a "prevents_catastrophe" = some pc)
    (h4 : a "violates_privacy" = some vp)
    (h5 : a "has_consent" = some hc)
    (h6 : a "deceives_human" = some dh)
    (h7 : a "has_ethics_approval" = some ea)
    (h8 : a "has_explanation" = some ex)
    (h9 : a "prevents_minor_harm" = some pm)
    (h10 : a "uses_historical_data" = some hd)
    (h11 : a "has_bias_mitigation" = some bm) :
    is_action_permissible a =
      Except.ok (rulesResult sH (mH && !pc) (vp && !hc) (dh && !(pm && ea)) (!ex) (hd && !bm)) :=
  eval_rules a _ _ _ _ _ _
    (rule1_ok a sH h1) (rule2_ok a mH pc h2 h3) (rule3_ok a vp hc h4 h5)
    (rule4_ok a dh pm ea h6 h9 h7) (rule5_ok a ex h8) (rule6_ok a hd bm h10 h11)

theorem eval_err1 (a : Action) (e : String)
    (g1 : is_rule1_violated a = Except.error e) :
    is_action_permissible a = Except.error e := by
  simp only [is_action_permissible, g1]

theorem eval_err2 (a : Action) (v1 : Bool) (e : String)
    (g1 : is_rule1_violated a = Except.ok v1)
    (g2 : is_rule2_violated a = Except.error e) :
    is_action_permissible a = Except.error e := by
  simp only [is_action_permissible, g1, g2]

theorem eval_err3 (a : Action) (v1 v2 : Bool) (e : String)
    (g1 : is_rule1_violated a = Except.ok v1)
    (g2 : is_rule2_violated a = Except.ok v2)
    (g3 : is_rule3_violated a = Except.error e) :
    is_action_permissible a = Except.error e := by
  simp only [is_action_permissible, g1, g2, g3]

theorem eval_err4 (a : Action) (v1 v2 v3 : Bool) (e : String)
    (g1 : is_rule1_violated a = Except.ok v1)
    (g2 : is_rule2_violated a = Except.ok v2)
    (g3 : is_rule3_violated a = Except.ok v3)
    (g4 : is_rule4_violated a = Except.error e) :
    is_action_permissible a = Except.error e := by
  simp only [is_action_permissible, g1, g2, g3, g4]

theorem eval_err5 (a : Action) (v1 v2 v3 v4 : Bool) (e : String)
    (g1 : is_rule1_violated a = Except.ok v1)
    (g2 : is_rule2_violated a = Except.ok v2)
    (g3 : is_rule3_violated a = Except.ok v3)
    (g4 : is_rule4_violated a = Except.ok v4)
    (g5 : is_rule5_violated a = Except.error e) :
    is_action_permissible a = Except.error e := by
  simp only [is_action_permissible, g1, g2, g3, g4, g5]

theorem eval_err6 (a : Action) (v1 v2 v3 v4 v5 : Bool) (e : String)
    (g1 : is_rule1_violated a = Except.ok v1)
    (g2 : is_rule2_violated a = Except.ok v2)
    (g3 : is_rule3_violated a = Except.ok v3)
    (g4 : is_rule4_violated a = Except.ok v4)
    (g5 : is_rule5_violated a = Except.ok v5)
    (g6 : is_rule6_violated a = Except.error e) :
    is_action_permissible a = Except.error e := by
  simp only [is_action_permissible, g1, g2, g3, g4, g5, g6]

theorem mem_rulesResult : ∀ v1 v2 v3 v4 v5 v6 : Bool,
    ("Rule 1: Non-Maleficence (Severe Harm)" ∈ (rulesResult v1 v2 v3 v4 v5 v6).2 ↔ v1 = true) ∧
    ("Rule 2: Harm-Mitigation (Unjustified Minor Harm)" ∈ (rulesResult v1 v2 v3 v4 v5 v6).2 ↔ v2 = true) ∧
    ("Rule 3: Data-Stewardship (Privacy without Consent)" ∈ (rulesResult v1 v2 v3 v4 v5 v6).2 ↔ v3 = true) ∧
    ("Rule 4: Honesty (Unjustified Deception)" ∈ (rulesResult v1 v2 v3 v4 v5 v6).2 ↔ v4 = true) ∧
    ("Rule 5: Accountability (No Explanation / Traceability)" ∈ (rulesResult v1 v2 v3 v4 v5 v6).2 ↔ v5 = true) ∧
    ("Rule 6: Bias Governance (Unmitigated Historical Bias)" ∈ (rulesResult v1 v2 v3 v4 v5 v6).2 ↔ v6 = true) := by
  decide

theorem rulesResult_fst_iff_nil : ∀ v1 v2 v3 v4 v5 v6 : Bool,
    ((rulesResult v1 v2 v3 v4 v5 v6).1 = true ↔ (rulesResult v1 v2 v3 v4 v5 v6).2 = []) := by
  decide

theorem rulesResult_pairwise : ∀ v1 v2 v3 v4 v5 v6 : Bool,
    ((rulesResult v1 v2 v3 v4 v5 v6).2).Pairwise (fun x y => ruleIdx x < ruleIdx y) := by
  decide

theorem rulesResult_mem_labels : ∀ v1 v2 v3 v4 v5 v6 : Bool,
    ∀ s ∈ (rulesResult v1 v2 v3 v4 v5 v6).2,
      s = "Rule 1: Non-Maleficence (Severe Harm)" ∨
      s = "Rule 2: Harm-Mitigation (Unjustified Minor Harm)" ∨
      s = "Rule 3: Data-Stewardship (Privacy without Consent)" ∨
      s = "Rule 4: Honesty (Unjustified Deception)" ∨
      s = "Rule 5: Accountability (No Explanation / Traceability)" ∨
      s = "Rule 6: Bias Governance (Unmitigated Historical Bias)" := by
  decide

theorem rulesResult_labels (v1 v2 v3 v4 v5 v6 : Bool) :
    ∀ s ∈ (rulesResult v1 v2 v3 v4 v5 v6).2,
      (s = "Rule 1: Non-Maleficence (Severe Harm)" ∧ v1 = true) ∨
      (s = "Rule 2: Harm-Mitigation (Unjustified Minor Harm)" ∧ v2 = true) ∨
      (s = "Rule 3: Data-Stewardship (Privacy without Consent)" ∧ v3 = true) ∨
      (s = "Rule 4: Honesty (Unjustified Deception)" ∧ v4 = true) ∨
      (s = "Rule 5: Accountability (No Explanation / Traceability)" ∧ v5 = true) ∨
      (s = "Rule 6: Bias Governance (Unmitigated Historical Bias)" ∧ v6 = true) := by
  intro s hs
  have hmem := mem_rulesResult v1 v2 v3 v4 v5 v6
  rcases rulesResult_mem_labels v1 v2 v3 v4 v5 v6 s hs with h | h | h | h | h | h
  · exact Or.inl ⟨h, hmem.1.mp (h ▸ hs)⟩
  · exact Or.inr (Or.inl ⟨h, hmem.2.1.mp (h ▸ hs)⟩)
  · exact Or.inr (Or.inr (Or.inl ⟨h, hmem.2.2.1.mp (h ▸ hs)⟩))
  · exact Or.inr (Or.inr (Or.inr (Or.inl ⟨h, hmem.2.2.2.1.mp (h ▸ hs)⟩)))
  · exact Or.inr (Or.inr (Or.inr (Or.inr (Or.inl ⟨h, hmem.2.2.2.2.1.mp (h ▸ hs)⟩))))
  · exact Or.inr (Or.inr (Or.inr (Or.inr (Or.inr ⟨h, hmem.2.2.2.2.2.mp (h ▸ hs)⟩))))

/-- Sanity check against the source's expected outcome for scenario A. -/
theorem scenario_A_expected :
    is_action_permissible scenario_A_action = Except.ok (true, []) := by
  rfl

/-- Sanity check against the source's expected outcome for scenario B. -/
theorem scenario_B_expected :
    is_action_permissible scenario_B_action =
      Except.ok (false,
        ["Rule 1: Non-Maleficence (Severe Harm)",
         "Rule 2: Harm-Mitigation (Unjustified Minor Harm)",
         "Rule 3: Data-Stewardship (Privacy without Consent)",
         "Rule 4: Honesty (Unjustified Deception)",
         "Rule 5: Accountability (No Explanation / Traceability)",
         "Rule 6: Bias Governance (Unmitigated Historical Bias)"]) := by
  rfl

/-- Sanity check against the source's expected outcome for scenario C. -/
theorem scenario_C_expected :
    is_action_permissible scenario_C_action = Except.ok (true, []) := by
  rfl

/-- Claim C1: for every Action containing all eleven required boolean keys,
is_action_permissible returns a violated_rules list containing rule i's label
iff rule i's predicate holds of the action: rule 1 iff causes_severe_harm;
rule 2 iff causes_minor_harm and not prevents_catastrophe; rule 3 iff
violates_privacy and not has_consent; rule 4 iff deceives_human and not
(prevents_minor_harm and has_ethics_approval); rule 5 iff not
has_explanation; rule 6 iff uses_historical_data and not has_bias_mitigation. -/
theorem claim_C1 (a : Action) (sH mH pc vp hc dh ea ex pm hd bm : Bool)
    (h1 : a "causes_severe_harm" = some sH)
    (h2 : a "causes_minor_harm" = some mH)
    (h3 : a "prevents_catastrophe" = some pc)
    (h4 : a "violates_privacy" = some vp)
    (h5 : a "has_consent" = some hc)
    (h6 : a "deceives_human" = some dh)
    (h7 : a "has_ethics_approval" = some ea)
    (h8 : a "has_explanation" = some ex)
    (h9 : a "prevents_minor_harm" = some pm)
    (h10 : a "uses_historical_data" = some hd)
    (h11 : a "has_bias_mitigation" = some bm)
    (p : Bool) (vr : List String)
    (hr : is_action_permissible a = Except.ok (p, vr)) :
    ("Rule 1: Non-Maleficence (Severe Harm)" ∈ vr ↔ sH = true) ∧
    ("Rule 2: Harm-Mitigation (Unjustified Minor Harm)" ∈ vr ↔ (mH = true ∧ pc = false)) ∧
    ("Rule 3: Data-Stewardship (Privacy without Consent)" ∈ vr ↔ (vp = true ∧ hc = false)) ∧
    ("Rule 4: Honesty (Unjustified Deception)" ∈ vr ↔ (dh = true ∧ ¬(pm = true ∧ ea = true))) ∧
    ("Rule 5: Accountability (No Explanation / Traceability)" ∈ vr ↔ ex = false) ∧
    ("Rule 6: Bias Governance (Unmitigated Historical Bias)" ∈ vr ↔ (hd = true ∧ bm = false)) := by
  have he := eval_eq a sH mH pc vp hc dh ea ex pm hd bm h1 h2 h3 h4 h5 h6 h7 h8 h9 h10 h11
  rw [hr] at he
  have hp := Except.ok.inj he
  have hvr : vr = (rulesResult sH (mH && !pc) (vp && !hc) (dh && !(pm && ea)) (!ex) (hd && !bm)).2 :=
    congrArg Prod.snd hp
  subst hvr
  have hm := mem_rulesResult sH (mH && !pc) (vp && !hc) (dh && !(pm && ea)) (!ex) (hd && !bm)
  refine ⟨?_, ?_, ?_, ?_, ?_, ?_⟩
  · rw [hm.1]
  · rw [hm.2.1]; cases mH <;> cases pc <;> simp
  · rw [hm.2.2.1]; cases vp <;> cases hc <;> simp
  · rw [hm.2.2.2.1]; cases dh <;> cases pm <;> cases ea <;> simp
  · rw [hm.2.2.2.2.1]; cases ex <;> simp
  · rw [hm.2.2.2.2.2]; cases hd <;> cases bm <;> simp

/-- Witness for C1 at scenario B, where all six rules fire. -/
theorem claim_C1_witness :
    ("Rule 1: Non-Maleficence (Severe Harm)" ∈ scenarioBViolations ↔ true = true) ∧
    ("Rule 2: Harm-Mitigation (Unjustified Minor Harm)" ∈ scenarioBViolations ↔ (true = true ∧ false = false)) ∧
    ("Rule 3: Data-Stewardship (Privacy without Consent)" ∈ scenarioBViolations ↔ (true = true ∧ false = false)) ∧
    ("Rule 4: Honesty (Unjustified Deception)" ∈ scenarioBViolations ↔ (true = true ∧ ¬(false = true ∧ false = true))) ∧
    ("Rule 5: Accountability (No Explanation / Traceability)" ∈ scenarioBViolations ↔ false = false) ∧
    ("Rule 6: Bias Governance (Unmitigated Historical Bias)" ∈ scenarioBViolations ↔ (true = true ∧ false = false)) :=
  claim_C1 scenario_B_action true true false true false true false false false true false
    rfl rfl rfl rfl rfl rfl rfl rfl rfl rfl rfl false scenarioBViolations rfl

/-- Claim C2: for every well-formed Action, is_permissible is true iff
violated_rules is empty. -/
theorem claim_C2 (a : Action) (sH mH pc vp hc dh ea ex pm hd bm : Bool)
    (h1 : a "causes_severe_harm" = some sH)
    (h2 : a "causes_minor_harm" = some mH)
    (h3 : a "prevents_catastrophe" = some pc)
    (h4 : a "violates_privacy" = some vp)
    (h5 : a "has_consent" = some hc)
    (h6 : a "deceives_human" = some dh)
    (h7 : a "has_ethics_approval" = some ea)
    (h8 : a "has_explanation" = some ex)
    (h9 : a "prevents_minor_harm" = some pm)
    (h10 : a "uses_historical_data" = some hd)
    (h11 : a "has_bias_mitigation" = some bm)
    (p : Bool) (vr : List String)
    (hr : is_action_permissible a = Except.ok (p, vr)) :
    p = true ↔ vr = [] := by
  have he := eval_eq a sH mH pc vp hc dh ea ex pm hd bm h1 h2 h3 h4 h5 h6 h7 h8 h9 h10 h11
  rw [hr] at he
  have hp := Except.ok.inj he
  have hfst : p = (rulesResult sH (mH && !pc) (vp && !hc) (dh && !(pm && ea)) (!ex) (hd && !bm)).1 :=
    congrArg Prod.fst hp
  have hsnd : vr = (rulesResult sH (mH && !pc) (vp && !hc) (dh && !(pm && ea)) (!ex) (hd && !bm)).2 :=
    congrArg Prod.snd hp
  subst hfst
  subst hsnd
  exact rulesResult_fst_iff_nil sH (mH && !pc) (vp && !hc) (dh && !(pm && ea)) (!ex) (hd && !bm)

/-- Witness for C2 at scenario A, which is permissible with no violations. -/
theorem claim_C2_witness : true = true ↔ ([] : List String) = [] :=
  claim_C2 scenario_A_action false true true false true false true true true false true
    rfl rfl rfl rfl rfl rfl rfl rfl rfl rfl rfl true [] rfl

/-- Claim C3: for every Action with all eleven keys present and boolean,
is_action_permissible terminates with a normal result and never raises. -/
theorem claim_C3 (a : Action) (sH mH pc vp hc dh ea ex pm hd bm : Bool)
    (h1 : a "causes_severe_harm" = some sH)
    (h2 : a "causes_minor_harm" = some mH)
    (h3 : a "prevents_catastrophe" = some pc)
    (h4 : a "violates_privacy" = some vp)
    (h5 : a "has_consent" = some hc)
    (h6 : a "deceives_human" = some dh)
    (h7 : a "has_ethics_approval" = some ea)
    (h8 : a "has_explanation" = some ex)
    (h9 : a "prevents_minor_harm" = some pm)
    (h10 : a "uses_historical_data" = some hd)
    (h11 : a "has_bias_mitigation" = some bm) :
    ∃ r, is_action_permissible a = Except.ok r :=
  ⟨_, eval_eq a sH mH pc vp hc dh ea ex pm hd bm h1 h2 h3 h4 h5 h6 h7 h8 h9 h10 h11⟩

/-- Witness for C3 at scenario C. -/
theorem claim_C3_witness : ∃ r, is_action_permissible scenario_C_action = Except.ok r :=
  claim_C3 scenario_C_action false true true true true true true true true true true
    rfl rfl rfl rfl rfl rfl rfl rfl rfl rfl rfl

/-- Claim C5: for every well-formed Action, the violated_rules list is
sorted by strictly ascending rule index, whatever combination of rules
fires. -/
theorem claim_C5 (a : Action) (sH mH pc vp hc dh ea ex pm hd bm : Bool)
    (h1 : a "causes_severe_harm" = some sH)
    (h2 : a "causes_minor_harm" = some mH)
    (h3 : a "prevents_catastrophe" = some pc)
    (h4 : a "violates_privacy" = some vp)
    (h5 : a "has_consent" = some hc)
    (h6 : a "deceives_human" = some dh)
    (h7 : a "has_ethics_approval" = some ea)
    (h8 : a "has_explanation" = some ex)
    (h9 : a "prevents_minor_harm" = some pm)
    (h10 : a "uses_historical_data" = some hd)
    (h11 : a "has_bias_mitigation" = some bm)
    (p : Bool) (vr : List String)
    (hr : is_action_permissible a = Except.ok (p, vr)) :
    vr.Pairwise (fun x y => ruleIdx x < ruleIdx y) := by
  have he := eval_eq a sH mH pc vp hc dh ea ex pm hd bm h1 h2 h3 h4 h5 h6 h7 h8 h9 h10 h11
  rw [hr] at he
  have hvr : vr = (rulesResult sH (mH && !pc) (vp && !hc) (dh && !(pm && ea)) (!ex) (hd && !bm)).2 :=
    congrArg Prod.snd (Except.ok.inj he)
  subst hvr
  exact rulesResult_pairwise sH (mH && !pc) (vp && !hc) (dh && !(pm && ea)) (!ex) (hd && !bm)

/-- Witness for C5 at scenario B, where all six rules fire. -/
theorem claim_C5_witness :
    scenarioBViolations.Pairwise (fun x y => ruleIdx x < ruleIdx y) :=
  claim_C5 scenario_B_action true true false true false true false false false true false
    rfl rfl rfl rfl rfl rfl rfl rfl rfl rfl rfl false scenarioBViolations rfl

/-- Claim C6: every string in violated_rules is verbatim one of the six
fixed labels, and it is the label of a rule whose predicate fired. -/
theorem claim_C6 (a : Action) (sH mH pc vp hc dh ea ex pm hd bm : Bool)
    (h1 : a "causes_severe_harm" = some sH)
    (h2 : a "causes_minor_harm" = some mH)
    (h3 : a "prevents_catastrophe" = some pc)
    (h4 : a "violates_privacy" = some vp)
    (h5 : a "has_consent" = some hc)
    (h6 : a "deceives_human" = some dh)
    (h7 : a "has_ethics_approval" = some ea)
    (h8 : a "has_explanation" = some ex)
    (h9 : a "prevents_minor_harm" = some pm)
    (h10 : a "uses_historical_data" = some hd)
    (h11 : a "has_bias_mitigation" = some bm)
    (p : Bool) (vr : List String)
    (hr : is_action_permissible a = Except.ok (p, vr)) :
    ∀ s ∈ vr,
      (s = "Rule 1: Non-Maleficence (Severe Harm)" ∧ sH = true) ∨
      (s = "Rule 2: Harm-Mitigation (Unjustified Minor Harm)" ∧ mH = true ∧ pc = false) ∨
      (s = "Rule 3: Data-Stewardship (Privacy without Consent)" ∧ vp = true ∧ hc = false) ∨
      (s = "Rule 4: Honesty (Unjustified Deception)" ∧ dh = true ∧ ¬(pm = true ∧ ea = true)) ∨
      (s = "Rule 5: Accountability (No Explanation / Traceability)" ∧ ex = false) ∨
      (s = "Rule 6: Bias Governance (Unmitigated Historical Bias)" ∧ hd = true ∧ bm = false) := by
  have he := eval_eq a sH mH pc vp hc dh ea ex pm hd bm h1 h2 h3 h4 h5 h6 h7 h8 h9 h10 h11
  rw [hr] at he
  have hvr : vr = (rulesResult sH (mH && !pc) (vp && !hc) (dh && !(pm && ea)) (!ex) (hd && !bm)).2 :=
    congrArg Prod.snd (Except.ok.inj he)
  subst hvr
  intro s hs
  rcases rulesResult_labels _ _ _ _ _ _ s hs with
    ⟨hse, hv⟩ | ⟨hse, hv⟩ | ⟨hse, hv⟩ | ⟨hse, hv⟩ | ⟨hse, hv⟩ | ⟨hse, hv⟩
  · exact Or.inl ⟨hse, hv⟩
  · refine Or.inr (Or.inl ⟨hse, ?_⟩)
    cases mH <;> cases pc <;> simp_all
  · refine Or.inr (Or.inr (Or.inl ⟨hse, ?_⟩))
    cases vp <;> cases hc <;> simp_all
  · refine Or.inr (Or.inr (Or.inr (Or.inl ⟨hse, ?_⟩)))
    cases dh <;> cases pm <;> cases ea <;> simp_all
  · refine Or.inr (Or.inr (Or.inr (Or.inr (Or.inl ⟨hse, ?_⟩))))
    cases ex <;> simp_all
  · refine Or.inr (Or.inr (Or.inr (Or.inr (Or.inr ⟨hse, ?_⟩))))
    cases hd <;> cases bm <;> simp_all

/-- Witness for C6 at scenario B, instantiated at the first element of its
violation list. -/
theorem claim_C6_witness :
    ("Rule 1: Non-Maleficence (Severe Harm)" = "Rule 1: Non-Maleficence (Severe Harm)" ∧ true = true) ∨
    ("Rule 1: Non-Maleficence (Severe Harm)" = "Rule 2: Harm-Mitigation (Unjustified Minor Harm)" ∧ true = true ∧ false = false) ∨
    ("Rule 1: Non-Maleficence (Severe Harm)" = "Rule 3: Data-Stewardship (Privacy without Consent)" ∧ true = true ∧ false = false) ∨
    ("Rule 1: Non-Maleficence (Severe Harm)" = "Rule 4: Honesty (Unjustified Deception)" ∧ true = true ∧ ¬(false = true ∧ false = true)) ∨
    ("Rule 1: Non-Maleficence (Severe Harm)" = "Rule 5: Accountability (No Explanation / Traceability)" ∧ false = false) ∨
    ("Rule 1: Non-Maleficence (Severe Harm)" = "Rule 6: Bias Governance (Unmitigated Historical Bias)" ∧ true = true ∧ false = false) :=
  claim_C6 scenario_B_action true true false true false true false false false true false
    rfl rfl rfl rfl rfl rfl rfl rfl rfl rfl rfl false scenarioBViolations rfl
    "Rule 1: Non-Maleficence (Severe Harm)" (by decide)

/-- Claim C7: rule 4's label appears in violated_rules iff deceives_human
is true and not both prevents_minor_harm and has_ethics_approval are true;
in particular it is absent when all three are true. -/
theorem claim_C7 (a : Action) (sH mH pc vp hc dh ea ex pm hd bm : Bool)
    (h1 : a "causes_severe_harm" = some sH)
    (h2 : a "causes_minor_harm" = some mH)
    (h3 : a "prevents_catastrophe" = some pc)
    (h4 : a "violates_privacy" = some vp)
    (h5 : a "has_consent" = some hc)
    (h6 : a "deceives_human" = some dh)
    (h7 : a "has_ethics_approval" = some ea)
    (h8 : a "has_explanation" = some ex)
    (h9 : a "prevents_minor_harm" = some pm)
    (h10 : a "uses_historical_data" = some hd)
    (h11 : a "has_bias_mitigation" = some bm)
    (p : Bool) (vr : List String)
    (hr : is_action_permissible a = Except.ok (p, vr)) :
    ("Rule 4: Honesty (Unjustified Deception)" ∈ vr ↔ (dh = true ∧ ¬(pm = true ∧ ea = true))) ∧
    (dh = true → pm = true → ea = true → "Rule 4: Honesty (Unjustified Deception)" ∉ vr) := by
  have he := eval_eq a sH mH pc vp hc dh ea ex pm hd bm h1 h2 h3 h4 h5 h6 h7 h8 h9 h10 h11
  rw [hr] at he
  have hvr : vr = (rulesResult sH (mH && !pc) (vp && !hc) (dh && !(pm && ea)) (!ex) (hd && !bm)).2 :=
    congrArg Prod.snd (Except.ok.inj he)
  subst hvr
  have hm := (mem_rulesResult sH (mH && !pc) (vp && !hc) (dh && !(pm && ea)) (!ex) (hd && !bm)).2.2.2.1
  constructor
  · rw [hm]; cases dh <;> cases pm <;> cases ea <;> simp
  · intro hdh hpm hea hmem
    rw [hm] at hmem
    subst hdh; subst hpm; subst hea
    simp at hmem

/-- Witness for C7 at scenario C, where deception is excused. -/
theorem claim_C7_witness :
    ("Rule 4: Honesty (Unjustified Deception)" ∈ ([] : List String) ↔
      (true = true ∧ ¬(true = true ∧ true = true))) ∧
    (true = true → true = true → true = true →
      "Rule 4: Honesty (Unjustified Deception)" ∉ ([] : List String)) :=
  claim_C7 scenario_C_action false true true true true true true true true true true
    rfl rfl rfl rfl rfl rfl rfl rfl rfl rfl rfl true [] rfl

/-- Claim C8: determinism. Two Actions that are equal as maps yield the
same result; for well-formed input both runs return the identical pair. -/
theorem claim_C8 (a a2 : Action) (hmap : ∀ k, a k = a2 k)
    (sH mH pc vp hc dh ea ex pm hd bm : Bool)
    (h1 : a "causes_severe_harm" = some sH)
    (h2 : a "causes_minor_harm" = some mH)
    (h3 : a "prevents_catastrophe" = some pc)
    (h4 : a "violates_privacy" = some vp)
    (h5 : a "has_consent" = some hc)
    (h6 : a "deceives_human" = some dh)
    (h7 : a "has_ethics_approval" = some ea)
    (h8 : a "has_explanation" = some ex)
    (h9 : a "prevents_minor_harm" = some pm)
    (h10 : a "uses_historical_data" = some hd)
    (h11 : a "has_bias_mitigation" = some bm) :
    ∃ r, is_action_permissible a = Except.ok r ∧ is_action_permissible a2 = Except.ok r := by
  have heq : a = a2 := funext hmap
  subst heq
  exact ⟨_, eval_eq a sH mH pc vp hc dh ea ex pm hd bm h1 h2 h3 h4 h5 h6 h7 h8 h9 h10 h11,
        eval_eq a sH mH pc vp hc dh ea ex pm hd bm h1 h2 h3 h4 h5 h6 h7 h8 h9 h10 h11⟩

/-- Witness for C8 at scenario A. -/
theorem claim_C8_witness :
    ∃ r, is_action_permissible scenario_A_action = Except.ok r ∧
      is_action_permissible scenario_A_action = Except.ok r :=
  claim_C8 scenario_A_action scenario_A_action (fun _ => rfl)
    false true true false true false true true true false true
    rfl rfl rfl rfl rfl rfl rfl rfl rfl rfl rfl

/-- Claim C9: whether rule j's label appears depends only on the attributes
read by rule j's predicate (first six conjuncts: two well-formed actions
agreeing on rule j's attributes agree on rule j's label), and making rule
i's predicate true always puts rule i's label in the list (last six
conjuncts). -/
theorem claim_C9 (a a2 : Action)
    (sH mH pc vp hc dh ea ex pm hd bm : Bool)
    (sH2 mH2 pc2 vp2 hc2 dh2 ea2 ex2 pm2 hd2 bm2 : Bool)
    (h1 : a "causes_severe_harm" = some sH)
    (h2 : a "causes_minor_harm" = some mH)
    (h3 : a "prevents_catastrophe" = some pc)
    (h4 : a "violates_privacy" = some vp)
    (h5 : a "has_consent" = some hc)
    (h6 : a "deceives_human" = some dh)
    (h7 : a "has_ethics_approval" = some ea)
    (h8 : a "has_explanation" = some ex)
    (h9 : a "prevents_minor_harm" = some pm)
    (h10 : a "uses_historical_data" = some hd)
    (h11 : a "has_bias_mitigation" = some bm)
    (k1 : a2 "causes_severe_harm" = some sH2)
    (k2 : a2 "causes_minor_harm" = some mH2)
    (k3 : a2 "prevents_catastrophe" = some pc2)
    (k4 : a2 "violates_privacy" = some vp2)
    (k5 : a2 "has_consent" = some hc2)
    (k6 : a2 "deceives_human" = some dh2)
    (k7 : a2 "has_ethics_approval" = some ea2)
    (k8 : a2 "has_explanation" = some ex2)
    (k9 : a2 "prevents_minor_harm" = some pm2)
    (k10 : a2 "uses_historical_data" = some hd2)
    (k11 : a2 "has_bias_mitigation" = some bm2)
    (p : Bool) (vr : List String)
    (hr : is_action_permissible a = Except.ok (p, vr))
    (p2 : Bool) (vr2 : List String)
    (hr2 : is_action_permissible a2 = Except.ok (p2, vr2)) :
    (sH = sH2 →
      ("Rule 1: Non-Maleficence (Severe Harm)" ∈ vr ↔
       "Rule 1: Non-Maleficence (Severe Harm)" ∈ vr2)) ∧
    (mH = mH2 → pc = pc2 →
      ("Rule 2: Harm-Mitigation (Unjustified Minor Harm)" ∈ vr ↔
       "Rule 2: Harm-Mitigation (Unjustified Minor Harm)" ∈ vr2)) ∧
    (vp = vp2 → hc = hc2 →
      ("Rule 3: Data-Stewardship (Privacy without Consent)" ∈ vr ↔
       "Rule 3: Data-Stewardship (Privacy without Consent)" ∈ vr2)) ∧
    (dh = dh2 → pm = pm2 → ea = ea2 →
      ("Rule 4: Honesty (Unjustified Deception)" ∈ vr ↔
       "Rule 4: Honesty (Unjustified Deception)" ∈ vr2)) ∧
    (ex = ex2 →
      ("Rule 5: Accountability (No Explanation / Traceability)" ∈ vr ↔
       "Rule 5: Accountability (No Explanation / Traceability)" ∈ vr2)) ∧
    (hd = hd2 → bm = bm2 →
      ("Rule 6: Bias Governance (Unmitigated Historical Bias)" ∈ vr ↔
       "Rule 6: Bias Governance (Unmitigated Historical Bias)" ∈ vr2)) ∧
    (sH2 = true → "Rule 1: Non-Maleficence (Severe Harm)" ∈ vr2) ∧
    (mH2 = true → pc2 = false → "Rule 2: Harm-Mitigation (Unjustified Minor Harm)" ∈ vr2) ∧
    (vp2 = true → hc2 = false → "Rule 3: Data-Stewardship (Privacy without Consent)" ∈ vr2) ∧
    (dh2 = true → (pm2 && ea2) = false → "Rule 4: Honesty (Unjustified Deception)" ∈ vr2) ∧
    (ex2 = false → "Rule 5: Accountability (No Explanation / Traceability)" ∈ vr2) ∧
    (hd2 = true → bm2 = false → "Rule 6: Bias Governance (Unmitigated Historical Bias)" ∈ vr2) := by
  have he := eval_eq a sH mH pc vp hc dh ea ex pm hd bm h1 h2 h3 h4 h5 h6 h7 h8 h9 h10 h11
  rw [hr] at he
  have hvr : vr = (rulesResult sH (mH && !pc) (vp && !hc) (dh && !(pm && ea)) (!ex) (hd && !bm)).2 :=
    congrArg Prod.snd (Except.ok.inj he)
  have he2 := eval_eq a2 sH2 mH2 pc2 vp2 hc2 dh2 ea2 ex2 pm2 hd2 bm2 k1 k2 k3 k4 k5 k6 k7 k8 k9 k10 k11
  rw [hr2] at he2
  have hvr2 : vr2 = (rulesResult sH2 (mH2 && !pc2) (vp2 && !hc2) (dh2 && !(pm2 && ea2)) (!ex2) (hd2 && !bm2)).2 :=
    congrArg Prod.snd (Except.ok.inj he2)
  subst hvr
  subst hvr2
  have hm := mem_rulesResult sH (mH && !pc) (vp && !hc) (dh && !(pm && ea)) (!ex) (hd && !bm)
  have hm2 := mem_rulesResult sH2 (mH2 && !pc2) (vp2 && !hc2) (dh2 && !(pm2 && ea2)) (!ex2) (hd2 && !bm2)
  refine ⟨?_, ?_, ?_, ?_, ?_, ?_, ?_, ?_, ?_, ?_, ?_, ?_⟩
  · intro e1; subst e1; rw [hm.1, hm2.1]
  · intro e1 e2; subst e1; subst e2; rw [hm.2.1, hm2.2.1]
  · intro e1 e2; subst e1; subst e2; rw [hm.2.2.1, hm2.2.2.1]
  · intro e1 e2 e3; subst e1; subst e2; subst e3; rw [hm.2.2.2.1, hm2.2.2.2.1]
  · intro e1; subst e1; rw [hm.2.2.2.2.1, hm2.2.2.2.2.1]
  · intro e1 e2; subst e1; subst e2; rw [hm.2.2.2.2.2, hm2.2.2.2.2.2]
  · intro e1; rw [hm2.1]; exact e1
  · intro e1 e2; rw [hm2.2.1]; subst e1; subst e2; rfl
  · intro e1 e2; rw [hm2.2.2.1]; subst e1; subst e2; rfl
  · intro e1 e2; rw [hm2.2.2.2.1]; subst e1; rw [e2]; rfl
  · intro e1; rw [hm2.2.2.2.2.1]; subst e1; rfl
  · intro e1 e2; rw [hm2.2.2.2.2.2]; subst e1; subst e2; rfl

/-- Witness for C9 at scenario A (no rule fires) and scenario B (all fire). -/
theorem claim_C9_witness :
    (false = true →
      ("Rule 1: Non-Maleficence (Severe Harm)" ∈ ([] : List String) ↔
       "Rule 1: Non-Maleficence (Severe Harm)" ∈ scenarioBViolations)) ∧
    (true = true → true = false →
      ("Rule 2: Harm-Mitigation (Unjustified Minor Harm)" ∈ ([] : List String) ↔
       "Rule 2: Harm-Mitigation (Unjustified Minor Harm)" ∈ scenarioBViolations)) ∧
    (false = true → true = false →
      ("Rule 3: Data-Stewardship (Privacy without Consent)" ∈ ([] : List String) ↔
       "Rule 3: Data-Stewardship (Privacy without Consent)" ∈ scenarioBViolations)) ∧
    (false = true → true = false → true = false →
      ("Rule 4: Honesty (Unjustified Deception)" ∈ ([] : List String) ↔
       "Rule 4: Honesty (Unjustified Deception)" ∈ scenarioBViolations)) ∧
    (true = false →
      ("Rule 5: Accountability (No Explanation / Traceability)" ∈ ([] : List String) ↔
       "Rule 5: Accountability (No Explanation / Traceability)" ∈ scenarioBViolations)) ∧
    (false = true → true = false →
      ("Rule 6: Bias Governance (Unmitigated Historical Bias)" ∈ ([] : List String) ↔
       "Rule 6: Bias Governance (Unmitigated Historical Bias)" ∈ scenarioBViolations)) ∧
    (true = true → "Rule 1: Non-Maleficence (Severe Harm)" ∈ scenarioBViolations) ∧
    (true = true → false = false → "Rule 2: Harm-Mitigation (Unjustified Minor Harm)" ∈ scenarioBViolations) ∧
    (true = true → false = false → "Rule 3: Data-Stewardship (Privacy without Consent)" ∈ scenarioBViolations) ∧
    (true = true → (false && false) = false → "Rule 4: Honesty (Unjustified Deception)" ∈ scenarioBViolations) ∧
    (false = false → "Rule 5: Accountability (No Explanation / Traceability)" ∈ scenarioBViolations) ∧
    (true = true → false = false → "Rule 6: Bias Governance (Unmitigated Historical Bias)" ∈ scenarioBViolations) :=
  claim_C9 scenario_A_action scenario_B_action
    false true true false true false true true true false true
    true true false true false true false false false true false
    rfl rfl rfl rfl rfl rfl rfl rfl rfl rfl rfl
    rfl rfl rfl rfl rfl rfl rfl rfl rfl rfl rfl
    true [] rfl false scenarioBViolations rfl

/-- Claim C10: because each rule predicate short-circuits its conjunction,
a missing second-operand key need not cause a failure.  Omitting
prevents_catastrophe while causes_minor_harm is false (first conjunct),
has_consent while violates_privacy is false (second), prevents_minor_harm
resp. has_ethics_approval while deceives_human is false (third and fourth),
or has_bias_mitigation while uses_historical_data is false (fifth), with
the remaining ten keys present and boolean, still yields a normal result. -/
theorem claim_C10 :
    (∀ (a : Action) (sH vp hc dh ea ex pm hd bm : Bool),
      a "causes_severe_harm" = some sH →
      a "causes_minor_harm" = some false →
      a "prevents_catastrophe" = none →
      a "violates_privacy" = some vp →
      a "has_consent" = some hc →
      a "deceives_human" = some dh →
      a "has_ethics_approval" = some ea →
      a "has_explanation" = some ex →
      a "prevents_minor_harm" = some pm →
      a "uses_historical_data" = some hd →
      a "has_bias_mitigation" = some bm →
      ∃ r, is_action_permissible a = Except.ok r) ∧
    (∀ (a : Action) (sH mH pc dh ea ex pm hd bm : Bool),
      a "causes_severe_harm" = some sH →
      a "causes_minor_harm" = some mH →
      a "prevents_catastrophe" = some pc →
      a "violates_privacy" = some false →
      a "has_consent" = none →
      a "deceives_human" = some dh →
      a "has_ethics_approval" = some ea →
      a "has_explanation" = some ex →
      a "prevents_minor_harm" = some pm →
      a "uses_historical_data" = some hd →
      a "has_bias_mitigation" = some bm →
      ∃ r, is_action_permissible a = Except.ok r) ∧
    (∀ (a : Action) (sH mH pc vp hc ea ex hd bm : Bool),
      a "causes_severe_harm" = some sH →
      a "causes_minor_harm" = some mH →
      a "prevents_catastrophe" = some pc →
      a "violates_privacy" = some vp →
      a "has_consent" = some hc →
      a "deceives_human" = some false →
      a "has_ethics_approval" = some ea →
      a "has_explanation" = some ex →
      a "prevents_minor_harm" = none →
      a "uses_historical_data" = some hd →
      a "has_bias_mitigation" = some bm →
      ∃ r, is_action_permissible a = Except.ok r) ∧
    (∀ (a : Action) (sH mH pc vp hc ex pm hd bm : Bool),
      a "causes_severe_harm" = some sH →
      a "causes_minor_harm" = some mH →
      a "prevents_catastrophe" = some pc →
      a "violates_privacy" = some vp →
      a "has_consent" = some hc →
      a "deceives_human" = some false →
      a "has_ethics_approval" = none →
      a "has_explanation" = some ex →
      a "prevents_minor_harm" = some pm →
      a "uses_historical_data" = some hd →
      a "has_bias_mitigation" = some bm →
      ∃ r, is_action_permissible a = Except.ok r) ∧
    (∀ (a : Action) (sH mH pc vp hc dh ea ex pm : Bool),
      a "causes_severe_harm" = some sH →
      a "causes_minor_harm" = some mH →
      a "prevents_catastrophe" = some pc →
      a "violates_privacy" = some vp →
      a "has_consent" = some hc →
      a "deceives_human" = some dh →
      a "has_ethics_approval" = some ea →
      a "has_explanation" = some ex →
      a "prevents_minor_harm" = some pm →
      a "uses_historical_data" = some false →
      a "has_bias_mitigation" = none →
      ∃ r, is_action_permissible a = Except.ok r) := by
  refine ⟨?_, ?_, ?_, ?_, ?_⟩
  · intro a sH vp hc dh ea ex pm hd bm h1 h2 _h3 h4 h5 h6 h7 h8 h9 h10 h11
    exact ⟨_, eval_rules a _ _ _ _ _ _
      (rule1_ok a sH h1) (rule2_ok_of_mH_false a h2) (rule3_ok a vp hc h4 h5)
      (rule4_ok a dh pm ea h6 h9 h7) (rule5_ok a ex h8) (rule6_ok a hd bm h10 h11)⟩
  · intro a sH mH pc dh ea ex pm hd bm h1 h2 h3 h4 _h5 h6 h7 h8 h9 h10 h11
    exact ⟨_, eval_rules a _ _ _ _ _ _
      (rule1_ok a sH h1) (rule2_ok a mH pc h2 h3) (rule3_ok_of_vp_false a h4)
      (rule4_ok a dh pm ea h6 h9 h7) (rule5_ok a ex h8) (rule6_ok a hd bm h10 h11)⟩
  · intro a sH mH pc vp hc ea ex hd bm h1 h2 h3 h4 h5 h6 h7 h8 _h9 h10 h11
    exact ⟨_, eval_rules a _ _ _ _ _ _
      (rule1_ok a sH h1) (rule2_ok a mH pc h2 h3) (rule3_ok a vp hc h4 h5)
      (rule4_ok_of_dh_false a h6) (rule5_ok a ex h8) (rule6_ok a hd bm h10 h11)⟩
  · intro a sH mH pc vp hc ex pm hd bm h1 h2 h3 h4 h5 h6 _h7 h8 h9 h10 h11
    exact ⟨_, eval_rules a _ _ _ _ _ _
      (rule1_ok a sH h1) (rule2_ok a mH pc h2 h3) (rule3_ok a vp hc h4 h5)
      (rule4_ok_of_dh_false a h6) (rule5_ok a ex h8) (rule6_ok a hd bm h10 h11)⟩
  · intro a sH mH pc vp hc dh ea ex pm h1 h2 h3 h4 h5 h6 h7 h8 h9 h10 _h11
    exact ⟨_, eval_rules a _ _ _ _ _ _
      (rule1_ok a sH h1) (rule2_ok a mH pc h2 h3) (rule3_ok a vp hc h4 h5)
      (rule4_ok a dh pm ea h6 h9 h7) (rule5_ok a ex h8) (rule6_ok_of_hd_false a h10)⟩

/-- Witness for C10: benign_full_action with each of the five
conditionally-read keys deleted still evaluates normally. -/
theorem claim_C10_witness :
    (∃ r, is_action_permissible (removeKey benign_full_action "prevents_catastrophe") = Except.ok r) ∧
    (∃ r, is_action_permissible (removeKey benign_full_action "has_consent") = Except.ok r) ∧
    (∃ r, is_action_permissible (removeKey benign_full_action "prevents_minor_harm") = Except.ok r) ∧
    (∃ r, is_action_permissible (removeKey benign_full_action "has_ethics_approval") = Except.ok r) ∧
    (∃ r, is_action_permissible (removeKey benign_full_action "has_bias_mitigation") = Except.ok r) :=
  ⟨claim_C10.1 (removeKey benign_full_action "prevents_catastrophe")
      false false true false true true true false true
      rfl rfl rfl rfl rfl rfl rfl rfl rfl rfl rfl,
   claim_C10.2.1 (removeKey benign_full_action "has_consent")
      false false true false true true true false true
      rfl rfl rfl rfl rfl rfl rfl rfl rfl rfl rfl,
   claim_C10.2.2.1 (removeKey benign_full_action "prevents_minor_harm")
      false false true false true true true false true
      rfl rfl rfl rfl rfl rfl rfl rfl rfl rfl rfl,
   claim_C10.2.2.2.1 (removeKey benign_full_action "has_ethics_approval")
      false false true false true true true false true
      rfl rfl rfl rfl rfl rfl rfl rfl rfl rfl rfl,
   claim_C10.2.2.2.2 (removeKey benign_full_action "has_bias_mitigation")
      false false true false true false true true true
      rfl rfl rfl rfl rfl rfl rfl rfl rfl rfl rfl⟩

/-- Counterexample to C4 as stated: deleting prevents_catastrophe from a
well-formed action whose causes_minor_harm is false does not make the
evaluation fail; the short-circuit in rule 2 never reads the missing key
and the evaluation returns a normal result. -/
theorem claim_C4_counterexample :
    is_action_permissible (removeKey benign_full_action "prevents_catastrophe") =
      Except.ok (true, []) ∧
    ∀ e, is_action_permissible (removeKey benign_full_action "prevents_catastrophe") ≠
      Except.error e := by
  have hok : is_action_permissible (removeKey benign_full_action "prevents_catastrophe") =
      Except.ok (true, []) := rfl
  exact ⟨hok, fun e h => by rw [hok] at h; exact Except.noConfusion h⟩

/-- Claim C4 (amended): removing one required key from an otherwise
well-formed Action makes the evaluation fail with an error naming exactly
that key whenever the key is actually read: always for the six
unconditionally-read keys, and exactly when its guard holds for the five
short-circuited keys (prevents_catastrophe when causes_minor_harm,
has_consent when violates_privacy, prevents_minor_harm when deceives_human,
has_ethics_approval when deceives_human and prevents_minor_harm,
has_bias_mitigation when uses_historical_data); when the guard is false the
result is the unchanged normal result, so a missing key is never silently
treated as false. -/
theorem claim_C4 (a : Action) (sH mH pc vp hc dh ea ex pm hd bm : Bool)
    (h1 : a "causes_severe_harm" = some sH)
    (h2 : a "causes_minor_harm" = some mH)
    (h3 : a "prevents_catastrophe" = some pc)
    (h4 : a "violates_privacy" = some vp)
    (h5 : a "has_consent" = some hc)
    (h6 : a "deceives_human" = some dh)
    (h7 : a "has_ethics_approval" = some ea)
    (h8 : a "has_explanation" = some ex)
    (h9 : a "prevents_minor_harm" = some pm)
    (h10 : a "uses_historical_data" = some hd)
    (h11 : a "has_bias_mitigation" = some bm) :
    (is_action_permissible (removeKey a "causes_severe_harm") =
      Except.error "causes_severe_harm") ∧
    (is_action_permissible (removeKey a "causes_minor_harm") =
      Except.error "causes_minor_harm") ∧
    ((mH = true → is_action_permissible (removeKey a "prevents_catastrophe") =
        Except.error "prevents_catastrophe") ∧
     (mH = false → is_action_permissible (removeKey a "prevents_catastrophe") =
        is_action_permissible a)) ∧
    (is_action_permissible (removeKey a "violates_privacy") =
      Except.error "violates_privacy") ∧
    ((vp = true → is_action_permissible (removeKey a "has_consent") =
        Except.error "has_consent") ∧
     (vp = false → is_action_permissible (removeKey a "has_consent") =
        is_action_permissible a)) ∧
    (is_action_permissible (removeKey a "deceives_human") =
      Except.error "deceives_human") ∧
    ((dh = true → is_action_permissible (removeKey a "prevents_minor_harm") =
        Except.error "prevents_minor_harm") ∧
     (dh = false → is_action_permissible (removeKey a "prevents_minor_harm") =
        is_action_permissible a)) ∧
    ((dh = true → pm = true → is_action_permissible (removeKey a "has_ethics_approval") =
        Except.error "has_ethics_approval") ∧
     (dh = false ∨ pm = false → is_action_permissible (removeKey a "has_ethics_approval") =
        is_action_permissible a)) ∧
    (is_action_permissible (removeKey a "has_explanation") =
      Except.error "has_explanation") ∧
    (is_action_permissible (removeKey a "uses_historical_data") =
      Except.error "uses_historical_data") ∧
    ((hd = true → is_action_permissible (removeKey a "has_bias_mitigation") =
        Except.error "has_bias_mitigation") ∧
     (hd = false → is_action_permissible (removeKey a "has_bias_mitigation") =
        is_action_permissible a)) := by
  refine ⟨?_, ?_, ⟨?_, ?_⟩, ?_, ⟨?_, ?_⟩, ?_, ⟨?_, ?_⟩, ⟨?_, ?_⟩, ?_, ?_, ⟨?_, ?_⟩⟩
  · exact eval_err1 _ _ (rule1_err _ (removeKey_self a _))
  · exact eval_err2 _ sH _
      (rule1_ok _ sH (removeKey_lookup a _ _ _ h1 (by decide)))
      (rule2_err_mH _ (removeKey_self a _))
  · intro e; subst e
    exact eval_err2 _ sH _
      (rule1_ok _ sH (removeKey_lookup a _ _ _ h1 (by decide)))
      (rule2_err_pc _ (removeKey_lookup a _ _ _ h2 (by decide)) (removeKey_self a _))
  · intro e; subst e
    rw [eval_rules (removeKey a "prevents_catastrophe")
          sH false (vp && !hc) (dh && !(pm && ea)) (!ex) (hd && !bm)
          (rule1_ok _ sH (removeKey_lookup a _ _ _ h1 (by decide)))
          (rule2_ok_of_mH_false _ (removeKey_lookup a _ _ _ h2 (by decide)))
          (rule3_ok _ vp hc (removeKey_lookup a _ _ _ h4 (by decide))
            (removeKey_lookup a _ _ _ h5 (by decide)))
          (rule4_ok _ dh pm ea (removeKey_lookup a _ _ _ h6 (by decide))
            (removeKey_lookup a _ _ _ h9 (by decide))
            (removeKey_lookup a _ _ _ h7 (by decide)))
          (rule5_ok _ ex (removeKey_lookup a _ _ _ h8 (by decide)))
          (rule6_ok _ hd bm (removeKey_lookup a _ _ _ h10 (by decide))
            (removeKey_lookup a _ _ _ h11 (by decide))),
        eval_eq a sH false pc vp hc dh ea ex pm hd bm h1 h2 h3 h4 h5 h6 h7 h8 h9 h10 h11]
    rfl
  · exact eval_err3 _ sH (mH && !pc) _
      (rule1_ok _ sH (removeKey_lookup a _ _ _ h1 (by decide)))
      (rule2_ok _ mH pc (removeKey_lookup a _ _ _ h2 (by decide))
        (removeKey_lookup a _ _ _ h3 (by decide)))
      (rule3_err_vp _ (removeKey_self a _))
  · intro e; subst e
    exact eval_err3 _ sH (mH && !pc) _
      (rule1_ok _ sH (removeKey_lookup a _ _ _ h1 (by decide)))
      (rule2_ok _ mH pc (removeKey_lookup a _ _ _ h2 (by decide))
        (removeKey_lookup a _ _ _ h3 (by decide)))
      (rule3_err_hc _ (removeKey_lookup a _ _ _ h4 (by decide)) (removeKey_self a _))
  · intro e; subst e
    rw [eval_rules (removeKey a "has_consent")
          sH (mH && !pc) false (dh && !(pm && ea)) (!ex) (hd && !bm)
          (rule1_ok _ sH (removeKey_lookup a _ _ _ h1 (by decide)))
          (rule2_ok _ mH pc (removeKey_lookup a _ _ _ h2 (by decide))
            (removeKey_lookup a _ _ _ h3 (by decide)))
          (rule3_ok_of_vp_false _ (removeKey_lookup a _ _ _ h4 (by decide)))
          (rule4_ok _ dh pm ea (removeKey_lookup a _ _ _ h6 (by decide))
            (removeKey_lookup a _ _ _ h9 (by decide))
            (removeKey_lookup a _ _ _ h7 (by decide)))
          (rule5_ok _ ex (removeKey_lookup a _ _ _ h8 (by decide)))
          (rule6_ok _ hd bm (removeKey_lookup a _ _ _ h10 (by decide))
            (removeKey_lookup a _ _ _ h11 (by decide))),
        eval_eq a sH mH pc false hc dh ea ex pm hd bm h1 h2 h3 h4 h5 h6 h7 h8 h9 h10 h11]
    rfl
  · exact eval_err4 _ sH (mH && !pc) (vp && !hc) _
      (rule1_ok _ sH (removeKey_lookup a _ _ _ h1 (by decide)))
      (rule2_ok _ mH pc (removeKey_lookup a _ _ _ h2 (by decide))
        (removeKey_lookup a _ _ _ h3 (by decide)))
      (rule3_ok _ vp hc (removeKey_lookup a _ _ _ h4 (by decide))
        (removeKey_lookup a _ _ _ h5 (by decide)))
      (rule4_err_dh _ (removeKey_self a _))
  · intro e; subst e
    exact eval_err4 _ sH (mH && !pc) (vp && !hc) _
      (rule1_ok _ sH (removeKey_lookup a _ _ _ h1 (by decide)))
      (rule2_ok _ mH pc (removeKey_lookup a _ _ _ h2 (by decide))
        (removeKey_lookup a _ _ _ h3 (by decide)))
      (rule3_ok _ vp hc (removeKey_lookup a _ _ _ h4 (by decide))
        (removeKey_lookup a _ _ _ h5 (by decide)))
      (rule4_err_pm _ (removeKey_lookup a _ _ _ h6 (by decide)) (removeKey_self a _))
  · intro e; subst e
    rw [eval_rules (removeKey a "prevents_minor_harm")
          sH (mH && !pc) (vp && !hc) false (!ex) (hd && !bm)
          (rule1_ok _ sH (removeKey_lookup a _ _ _ h1 (by decide)))
          (rule2_ok _ mH pc (removeKey_lookup a _ _ _ h2 (by decide))
            (removeKey_lookup a _ _ _ h3 (by decide)))
          (rule3_ok _ vp hc (removeKey_lookup a _ _ _ h4 (by decide))
            (removeKey_lookup a _ _ _ h5 (by decide)))
          (rule4_ok_of_dh_false _ (removeKey_lookup a _ _ _ h6 (by decide)))
          (rule5_ok _ ex (removeKey_lookup a _ _ _ h8 (by decide)))
          (rule6_ok _ hd bm (removeKey_lookup a _ _ _ h10 (by decide))
            (removeKey_lookup a _ _ _ h11 (by decide))),
        eval_eq a sH mH pc vp hc false ea ex pm hd bm h1 h2 h3 h4 h5 h6 h7 h8 h9 h10 h11]
    rfl
  · intro e1 e2; subst e1; subst e2
    exact eval_err4 _ sH (mH && !pc) (vp && !hc) _
      (rule1_ok _ sH (removeKey_lookup a _ _ _ h1 (by decide)))
      (rule2_ok _ mH pc (removeKey_lookup a _ _ _ h2 (by decide))
        (removeKey_lookup a _ _ _ h3 (by decide)))
      (rule3_ok _ vp hc (removeKey_lookup a _ _ _ h4 (by decide))
        (removeKey_lookup a _ _ _ h5 (by decide)))
      (rule4_err_ea _ (removeKey_lookup a _ _ _ h6 (by decide))
        (removeKey_lookup a _ _ _ h9 (by decide)) (removeKey_self a _))
  · intro e
    rcases e with e | e
    · subst e
      rw [eval_rules (removeKey a "has_ethics_approval")
            sH (mH && !pc) (vp && !hc) false (!ex) (hd && !bm)
            (rule1_ok _ sH (removeKey_lookup a _ _ _ h1 (by decide)))
            (rule2_ok _ mH pc (removeKey_lookup a _ _ _ h2 (by decide))
              (removeKey_lookup a _ _ _ h3 (by decide)))
            (rule3_ok _ vp hc (removeKey_lookup a _ _ _ h4 (by decide))
              (removeKey_lookup a _ _ _ h5 (by decide)))
            (rule4_ok_of_dh_false _ (removeKey_lookup a _ _ _ h6 (by decide)))
            (rule5_ok _ ex (removeKey_lookup a _ _ _ h8 (by decide)))
            (rule6_ok _ hd bm (removeKey_lookup a _ _ _ h10 (by decide))
              (removeKey_lookup a _ _ _ h11 (by decide))),
          eval_eq a sH mH pc vp hc false ea ex pm hd bm h1 h2 h3 h4 h5 h6 h7 h8 h9 h10 h11]
      rfl
    · subst e
      cases dh2 : dh
      · rw [dh2] at h6
        rw [eval_rules (removeKey a "has_ethics_approval")
              sH (mH && !pc) (vp && !hc) false (!ex) (hd && !bm)
              (rule1_ok _ sH (removeKey_lookup a _ _ _ h1 (by decide)))
              (rule2_ok _ mH pc (removeKey_lookup a _ _ _ h2 (by decide))
                (removeKey_lookup a _ _ _ h3 (by decide)))
              (rule3_ok _ vp hc (removeKey_lookup a _ _ _ h4 (by decide))
                (removeKey_lookup a _ _ _ h5 (by decide)))
              (rule4_ok_of_dh_false _ (removeKey_lookup a _ _ _ h6 (by decide)))
              (rule5_ok _ ex (removeKey_lookup a _ _ _ h8 (by decide)))
              (rule6_ok _ hd bm (removeKey_lookup a _ _ _ h10 (by decide))
                (removeKey_lookup a _ _ _ h11 (by decide))),
            eval_eq a sH mH pc vp hc false ea ex false hd bm h1 h2 h3 h4 h5 h6 h7 h8 h9 h10 h11]
        rfl
      · rw [dh2] at h6
        rw [eval_rules (removeKey a "has_ethics_approval")
              sH (mH && !pc) (vp && !hc) true (!ex) (hd && !bm)
              (rule1_ok _ sH (removeKey_lookup a _ _ _ h1 (by decide)))
              (rule2_ok _ mH pc (removeKey_lookup a _ _ _ h2 (by decide))
                (removeKey_lookup a _ _ _ h3 (by decide)))
              (rule3_ok _ vp hc (removeKey_lookup a _ _ _ h4 (by decide))
                (removeKey_lookup a _ _ _ h5 (by decide)))
              (rule4_ok_of_pm_false _ (removeKey_lookup a _ _ _ h6 (by decide))
                (removeKey_lookup a _ _ _ h9 (by decide)))
              (rule5_ok _ ex (removeKey_lookup a _ _ _ h8 (by decide)))
              (rule6_ok _ hd bm (removeKey_lookup a _ _ _ h10 (by decide))
                (removeKey_lookup a _ _ _ h11 (by decide))),
            eval_eq a sH mH pc vp hc true ea ex false hd bm h1 h2 h3 h4 h5 h6 h7 h8 h9 h10 h11]
        rfl
  · exact eval_err5 _ sH (mH && !pc) (vp && !hc) (dh && !(pm && ea)) _
      (rule1_ok _ sH (removeKey_lookup a _ _ _ h1 (by decide)))
      (rule2_ok _ mH pc (removeKey_lookup a _ _ _ h2 (by decide))
        (removeKey_lookup a _ _ _ h3 (by decide)))
      (rule3_ok _ vp hc (removeKey_lookup a _ _ _ h4 (by decide))
        (removeKey_lookup a _ _ _ h5 (by decide)))
      (rule4_ok _ dh pm ea (removeKey_lookup a _ _ _ h6 (by decide))
        (removeKey_lookup a _ _ _ h9 (by decide))
        (removeKey_lookup a _ _ _ h7 (by decide)))
      (rule5_err_ex _ (removeKey_self a _))
  · exact eval_err6 _ sH (mH && !pc) (vp && !hc) (dh && !(pm && ea)) (!ex) _
      (rule1_ok _ sH (removeKey_lookup a _ _ _ h1 (by decide)))
      (rule2_ok _ mH pc (removeKey_lookup a _ _ _ h2 (by decide))
        (removeKey_lookup a _ _ _ h3 (by decide)))
      (rule3_ok _ vp hc (removeKey_lookup a _ _ _ h4 (by decide))
        (removeKey_lookup a _ _ _ h5 (by decide)))
      (rule4_ok _ dh pm ea (removeKey_lookup a _ _ _ h6 (by decide))
        (removeKey_lookup a _ _ _ h9 (by decide))
        (removeKey_lookup a _ _ _ h7 (by decide)))
      (rule5_ok _ ex (removeKey_lookup a _ _ _ h8 (by decide)))
      (rule6_err_hd _ (removeKey_self a _))
  · intro e; subst e
    exact eval_err6 _ sH (mH && !pc) (vp && !hc) (dh && !(pm && ea)) (!ex) _
      (rule1_ok _ sH (removeKey_lookup a _ _ _ h1 (by decide)))
      (rule2_ok _ mH pc (removeKey_lookup a _ _ _ h2 (by decide))
        (removeKey_lookup a _ _ _ h3 (by decide)))
      (rule3_ok _ vp hc (removeKey_lookup a _ _ _ h4 (by decide))
        (removeKey_lookup a _ _ _ h5 (by decide)))
      (rule4_ok _ dh pm ea (removeKey_lookup a _ _ _ h6 (by decide))
        (removeKey_lookup a _ _ _ h9 (by decide))
        (removeKey_lookup a _ _ _ h7 (by decide)))
      (rule5_ok _ ex (removeKey_lookup a _ _ _ h8 (by decide)))
      (rule6_err_bm _ (removeKey_lookup a _ _ _ h10 (by decide)) (removeKey_self a _))
  · intro e; subst e
    rw [eval_rules (removeKey a "has_bias_mitigation")
          sH (mH && !pc) (vp && !hc) (dh && !(pm && ea)) (!ex) false
          (rule1_ok _ sH (removeKey_lookup a _ _ _ h1 (by decide)))
          (rule2_ok _ mH pc (removeKey_lookup a _ _ _ h2 (by decide))
            (removeKey_lookup a _ _ _ h3 (by decide)))
          (rule3_ok _ vp hc (removeKey_lookup a _ _ _ h4 (by decide))
            (removeKey_lookup a _ _ _ h5 (by decide)))
          (rule4_ok _ dh pm ea (removeKey_lookup a _ _ _ h6 (by decide))
            (removeKey_lookup a _ _ _ h9 (by decide))
            (removeKey_lookup a _ _ _ h7 (by decide)))
          (rule5_ok _ ex (removeKey_lookup a _ _ _ h8 (by decide)))
          (rule6_ok_of_hd_false _ (removeKey_lookup a _ _ _ h10 (by decide))),
        eval_eq a sH mH pc vp hc dh ea ex pm false bm h1 h2 h3 h4 h5 h6 h7 h8 h9 h10 h11]
    rfl

/-- Witness for the amended C4 at benign_full_action. -/
theorem claim_C4_witness :
    (is_action_permissible (removeKey benign_full_action "causes_severe_harm") =
      Except.error "causes_severe_harm") ∧
    (is_action_permissible (removeKey benign_full_action "causes_minor_harm") =
      Except.error "causes_minor_harm") ∧
    ((false = true → is_action_permissible (removeKey benign_full_action "prevents_catastrophe") =
        Except.error "prevents_catastrophe") ∧
     (false = false → is_action_permissible (removeKey benign_full_action "prevents_catastrophe") =
        is_action_permissible benign_full_action)) ∧
    (is_action_permissible (removeKey benign_full_action "violates_privacy") =
      Except.error "violates_privacy") ∧
    ((false = true → is_action_permissible (removeKey benign_full_action "has_consent") =
        Except.error "has_consent") ∧
     (false = false → is_action_permissible (removeKey benign_full_action "has_consent") =
        is_action_permissible benign_full_action)) ∧
    (is_action_permissible (removeKey benign_full_action "deceives_human") =
      Except.error "deceives_human") ∧
    ((false = true → is_action_permissible (removeKey benign_full_action "prevents_minor_harm") =
        Except.error "prevents_minor_harm") ∧
     (false = false → is_action_permissible (removeKey benign_full_action "prevents_minor_harm") =
        is_action_permissible benign_full_action)) ∧
    ((false = true → true = true → is_action_permissible (removeKey benign_full_action "has_ethics_approval") =
        Except.error "has_ethics_approval") ∧
     (false = false ∨ true = false → is_action_permissible (removeKey benign_full_action "has_ethics_approval") =
        is_action_permissible benign_full_action)) ∧
    (is_action_permissible (removeKey benign_full_action "has_explanation") =
      Except.error "has_explanation") ∧
    (is_action_permissible (removeKey benign_full_action "uses_historical_data") =
      Except.error "uses_historical_data") ∧
    ((false = true → is_action_permissible (removeKey benign_full_action "has_bias_mitigation") =
        Except.error "has_bias_mitigation") ∧
     (false = false → is_action_permissible (removeKey benign_full_action "has_bias_mitigation") =
        is_action_permissible benign_full_action)) :=
  claim_C4 benign_full_action false false true false true false true true true false true
    rfl rfl rfl rfl rfl rfl rfl rfl rfl rfl rfl

end EthicsAdvisor
